import Mathlib

/-
  Verification of the trip duty-cycle scheduler (spotter-trips-backend):
  the stop planner (services/route_service.py), the HOS compliance checker
  (services/hos_calculator.py), the ELD daily-log builder
  (services/eld_service.py) and the shared data classes
  (utils/data_classes.py, utils/helpers.py, utils/constants.py).

  Modelling conventions:
  * Python floats are modelled as exact rationals.
  * Times are rational hours since an arbitrary epoch.  A calendar day is
    the half-open 24-hour block [24*k, 24*(k+1)); `datetime.date()` is the
    day number k, and `datetime.max.time()` (23:59:59.999999) is one
    microsecond before the next midnight.
  * The three source `while` loops are embedded as structural recursion on
    an explicit iteration budget that is at least the number of iterations
    the loop performs (the exact-output theorems below pin the results, so
    an insufficient budget would be refuted).
  * Geocoding and the external routing provider are excluded collaborators:
    the core receives an already-resolved RouteData.
-/

/-- Constants from utils/constants.py (HOS_LIMITS and ROUTE_CONSTANTS). -/
def DAILY_DRIVE_LIMIT : ℚ := 11

/-- HOS_LIMITS DAILY_DUTY_LIMIT. -/
def DAILY_DUTY_LIMIT : ℚ := 14

/-- HOS_LIMITS WEEKLY_LIMIT. -/
def WEEKLY_LIMIT : ℚ := 70

/-- HOS_LIMITS CYCLE_DAYS. -/
def CYCLE_DAYS : ℚ := 8

/-- HOS_LIMITS MANDATORY_REST. -/
def MANDATORY_REST : ℚ := 10

/-- ROUTE_CONSTANTS FUEL_STOP_INTERVAL. -/
def FUEL_STOP_INTERVAL : ℚ := 1000

/-- ROUTE_CONSTANTS AVERAGE_SPEED. -/
def AVERAGE_SPEED : ℚ := 55

/-- ROUTE_CONSTANTS PICKUP_DURATION. -/
def PICKUP_DURATION : ℚ := 1

/-- ROUTE_CONSTANTS DROPOFF_DURATION. -/
def DROPOFF_DURATION : ℚ := 1

/-- ROUTE_CONSTANTS FUEL_STOP_DURATION. -/
def FUEL_STOP_DURATION : ℚ := 1/2

/-- ERROR_MESSAGES CYCLE_EXCEEDED. -/
def CYCLE_EXCEEDED_MSG : String := "Weekly cycle limit exceeded"

/-- utils/data_classes.py TripRequest.  cycle_used is a Python int. -/
structure TripRequest where
  current_location : String
  pickup_location : String
  dropoff_location : String
  cycle_used : ℤ
deriving DecidableEq

/-- TripRequest.__post_init__: constructing a TripRequest validates
cycle_used and raises ValueError when it is outside [0, 70]. -/
def mkTripRequest (cur pick drop : String) (cycle : ℤ) : Except String TripRequest :=
  if 0 ≤ cycle ∧ cycle ≤ 70 then Except.ok ⟨cur, pick, drop, cycle⟩
  else Except.error "Cycle used must be between 0 and 70 hours"

/-- utils/data_classes.py Location. -/
structure Location where
  address : String
  latitude : ℚ
  longitude : ℚ
deriving DecidableEq

/-- utils/data_classes.py Stop.  The field `kind` holds the Python `type`
string (rest, fuel, pickup, dropoff); coordinates are (longitude, latitude)
pairs as in the source. -/
structure Stop where
  kind : String
  location : Location
  time : ℚ
  duration : ℚ
  description : String
deriving DecidableEq

/-- utils/data_classes.py RouteData; coordinates are [lon, lat] pairs. -/
structure RouteData where
  distance : ℚ
  duration : ℚ
  coordinates : List (ℚ × ℚ)
deriving DecidableEq

/-- utils/data_classes.py ELDEntry. -/
structure ELDEntry where
  status : String
  start_time : ℚ
  end_time : ℚ
  location : String
  duration : ℚ
deriving DecidableEq

/-- utils/data_classes.py DailyLog; `date` is the day number. -/
structure DailyLog where
  date : ℤ
  entries : List ELDEntry
  total_drive_time : ℚ
  total_duty_time : ℚ
deriving DecidableEq

/-- DailyLog.add_entry: append an entry and update the running totals. -/
def DailyLog.add_entry (log : DailyLog) (e : ELDEntry) : DailyLog :=
  { log with
    entries := log.entries ++ [e]
    total_drive_time :=
      log.total_drive_time + (if e.status = "driving" then e.duration else 0)
    total_duty_time :=
      log.total_duty_time +
        (if e.status = "driving" ∨ e.status = "on_duty" then e.duration else 0) }

/-- utils/data_classes.py HOSStatus. -/
structure HOSStatus where
  cycle_used : ℤ
  remaining_hours : ℤ
  drive_time_today : ℚ
  duty_time_today : ℚ
  next_reset : ℚ
  violations : List String
deriving DecidableEq

/-- The dict returned by RouteService.calculate_route:
route / stops / fuel_stops. -/
structure RouteCalcResult where
  route : RouteData
  stops : List Stop
  fuel_stops : List Stop
deriving DecidableEq

/-- utils/helpers.py interpolate_route_position: approximate coordinates at
a mile marker by linear index interpolation (Python int() truncation is
the floor here because the ratio is in (0,1) on the branch that uses it). -/
def interpolate_route_position (coordinates : List (ℚ × ℚ)) (mile_marker : ℚ)
    (total_distance : ℚ) : ℚ × ℚ :=
  if coordinates = [] ∨ mile_marker ≤ 0 then coordinates.getD 0 (0, 0)
  else if mile_marker ≥ total_distance then
    coordinates.getD (coordinates.length - 1) (0, 0)
  else
    let position_ratio := mile_marker / total_distance
    let index := (⌊position_ratio * ((coordinates.length : ℚ) - 1)⌋).toNat
    if index ≥ coordinates.length then coordinates.getD (coordinates.length - 1) (0, 0)
    else coordinates.getD index (0, 0)

/-- The while loop of utils/helpers.py calculate_fuel_stops, as structural
recursion on an iteration budget: while current < distance, advance by
1000 miles and record the marker when it is still strictly inside the
route. -/
def fuel_stops_loop : ℕ → ℚ → ℚ → List ℚ
  | 0, _, _ => []
  | budget + 1, route_distance, current_mile =>
    if current_mile < route_distance then
      (if current_mile + 1000 < route_distance then [current_mile + 1000] else []) ++
        fuel_stops_loop budget route_distance (current_mile + 1000)
    else []

/-- utils/helpers.py calculate_fuel_stops.  The loop advances by 1000 each
iteration, so it runs exactly ceil((distance - start)/1000) times when the
distance exceeds the start mile; the budget floor+1 covers that. -/
def calculate_fuel_stops (route_distance : ℚ) (start_mile : ℚ := 0) : List ℚ :=
  fuel_stops_loop (⌊(route_distance - start_mile) / 1000⌋ + 1).toNat
    route_distance start_mile

/-- The while loop of RouteService._calculate_rest_stops: drive up to
55 mph * 11 h per segment, and after each segment that does not reach the
destination insert a 10-hour rest stop at the interpolated position.
State: (remaining_distance, distance_traveled, current_time); returns the
rest stops in order together with the time at which the loop ends. -/
def rest_stops_loop (route : RouteData) : ℕ → ℚ → ℚ → ℚ → List Stop × ℚ
  | 0, _, _, current_time => ([], current_time)
  | budget + 1, remaining_distance, distance_traveled, current_time =>
    if remaining_distance > 0 then
      let max_drive_distance := AVERAGE_SPEED * 11
      let drive_distance := min max_drive_distance remaining_distance
      let drive_time := drive_distance / AVERAGE_SPEED
      let traveled := distance_traveled + drive_distance
      let t := current_time + drive_time
      if traveled < route.distance then
        let rest_coords := interpolate_route_position route.coordinates traveled route.distance
        let s : Stop :=
          ⟨"rest", ⟨"Rest Area", rest_coords.2, rest_coords.1⟩, t, 10,
            "Mandatory 10-hour rest period"⟩
        let rec_result := rest_stops_loop route budget (remaining_distance - drive_distance) traveled (t + 10)
        (s :: rec_result.1, rec_result.2)
      else
        rest_stops_loop route budget (remaining_distance - drive_distance) traveled t
    else ([], current_time)

/-- RouteService._calculate_rest_stops.  The loop consumes min(605, remaining)
miles per iteration, so it runs at most ceil(distance/605) times; the budget
floor+1 covers that.  Python indexes coordinates[1] (or [0]) for the pickup
and coordinates[-1] for the dropoff; on an empty coordinate list the pickup
access raises, modelled here by the (0,0) default. -/
def calculate_rest_stops (route : RouteData) (trip : TripRequest) (now : ℚ) : List Stop :=
  let pickup_coords :=
    if route.coordinates.length > 1 then route.coordinates.getD 1 (0, 0)
    else route.coordinates.getD 0 (0, 0)
  let pickup : Stop :=
    ⟨"pickup", ⟨"Pickup Location", pickup_coords.2, pickup_coords.1⟩, now,
      PICKUP_DURATION, "Pickup cargo"⟩
  let loop_result :=
    rest_stops_loop route (⌊route.distance / (AVERAGE_SPEED * 11)⌋ + 1).toNat
      route.distance 0 (now + PICKUP_DURATION)
  let dropoff_coords := (route.coordinates.getLast?).getD (0, 0)
  let dropoff : Stop :=
    ⟨"dropoff", ⟨"Dropoff Location", dropoff_coords.2, dropoff_coords.1⟩,
      loop_result.2, DROPOFF_DURATION, "Deliver cargo"⟩
  pickup :: loop_result.1 ++ [dropoff]

/-- Python str formatting of a mile marker with no decimal places, used in
the fuel stop description (f-string with .0f). -/
def formatMile (q : ℚ) : String := toString (round q)

/-- RouteService._calculate_fuel_stops: a fuel stop of 0.5 h at each mile
marker returned by calculate_fuel_stops, positioned by interpolation.  The
source stamps each with datetime.now(), passed here as `now`. -/
def service_calculate_fuel_stops (route : RouteData) (now : ℚ) : List Stop :=
  (calculate_fuel_stops route.distance 0).map (fun mile_marker =>
    let coords := interpolate_route_position route.coordinates mile_marker route.distance
    ⟨"fuel", ⟨"Fuel Stop", coords.2, coords.1⟩, now, FUEL_STOP_DURATION,
      "Fuel stop at mile " ++ formatMile mile_marker⟩)

/-- RouteService.calculate_route, with geocoding and the external routing
call (excluded collaborators) already resolved into `route`. -/
def calculate_route (route : RouteData) (trip : TripRequest) (now : ℚ) : RouteCalcResult :=
  ⟨route, calculate_rest_stops route trip now, service_calculate_fuel_stops route now⟩

/-- Python str formatting with one decimal place (f-string with .1f), for
the values that reach it in this code base (nonnegative multiples of 0.1
after rounding). -/
def formatOneDecimal (q : ℚ) : String :=
  let tenths : ℤ := round (q * 10)
  toString (tenths / 10) ++ "." ++ toString (tenths % 10)

/-- The daily drive-limit violation message of HOSCalculator._check_violations. -/
def driveLimitMsg (drive_time : ℚ) : String :=
  "Trip requires " ++ formatOneDecimal drive_time ++
    " hours of driving, exceeding daily limit of 11 hours"

/-- The daily duty-limit violation message of HOSCalculator._check_violations. -/
def dutyLimitMsg (duty_time : ℚ) : String :=
  "Trip requires " ++ formatOneDecimal duty_time ++
    " hours of duty, exceeding daily limit of 14 hours"

/-- The multi-day planning violation message of HOSCalculator._check_violations. -/
def MULTI_DAY_MSG : String := "Trip requires multi-day planning with mandatory rest periods"

/-- The accumulation loop of HOSCalculator._calculate_estimated_duty_time:
add the duration of every stop whose type counts as on-duty. -/
def onDutySum : List Stop → ℚ
  | [] => 0
  | s :: rest =>
    (if s.kind = "pickup" ∨ s.kind = "dropoff" ∨ s.kind = "fuel" then s.duration else 0)
      + onDutySum rest

/-- HOSCalculator._calculate_estimated_duty_time: route duration plus the
on-duty stop durations from route_data['stops'], capped at the daily duty
limit.  Note the fuel stops sit in route_data['fuel_stops'] and are not
part of the iterated list. -/
def calculate_estimated_duty_time (route_data : RouteCalcResult) : ℚ :=
  min (route_data.route.duration + onDutySum route_data.stops) DAILY_DUTY_LIMIT

/-- HOSCalculator._check_violations, in source order: weekly cycle, daily
drive limit, daily duty limit, multi-day planning. -/
def check_violations (trip : TripRequest) (route : RouteData)
    (drive_time duty_time : ℚ) : List String :=
  (if (trip.cycle_used : ℚ) + duty_time > WEEKLY_LIMIT then [CYCLE_EXCEEDED_MSG] else [])
  ++ (if drive_time > DAILY_DRIVE_LIMIT then [driveLimitMsg drive_time] else [])
  ++ (if duty_time > DAILY_DUTY_LIMIT then [dutyLimitMsg duty_time] else [])
  ++ (if route.duration > DAILY_DRIVE_LIMIT then [MULTI_DAY_MSG] else [])

/-- HOSCalculator.calculate_compliance.  `now` stands for datetime.now();
the next reset is 8 days later. -/
def calculate_compliance (trip : TripRequest) (route_data : RouteCalcResult)
    (now : ℚ) : HOSStatus :=
  let route := route_data.route
  let remaining_hours : ℤ := 70 - trip.cycle_used
  let estimated_drive_time := min route.duration DAILY_DRIVE_LIMIT
  let estimated_duty_time := calculate_estimated_duty_time route_data
  let next_reset := now + 24 * CYCLE_DAYS
  ⟨trip.cycle_used, remaining_hours, estimated_drive_time, estimated_duty_time,
    next_reset, check_violations trip route estimated_drive_time estimated_duty_time⟩

/-- One microsecond in hours: the gap between datetime.max.time() and the
next midnight. -/
def MICRO : ℚ := 1 / 3600000000

/-- The calendar day number of a time (datetime.date()). -/
def dayIndex (t : ℚ) : ℤ := ⌊t / 24⌋

/-- Midnight at the start of the day containing t. -/
def dayStart (t : ℚ) : ℚ := 24 * (dayIndex t)

/-- datetime.combine(t.date(), datetime.max.time()): one microsecond before
the next midnight. -/
def endOfDay (t : ℚ) : ℚ := dayStart t + 24 - MICRO

/-- ELDService._merge_and_sort_stops: pickup first, then all fuel stops,
then all rest stops, then dropoff. -/
def merge_and_sort_stops (stops fuel_stops : List Stop) : List Stop :=
  (stops.filter (fun s => s.kind == "pickup")) ++ fuel_stops ++
    (stops.filter (fun s => s.kind == "rest")) ++
    (stops.filter (fun s => s.kind == "dropoff"))

/-- ELDService._calculate_drive_time_between_stops: distribute the total
route duration over an assumed five legs, weighted by the adjacent stop
kinds (0.2 after pickup, 0.3 into dropoff, 0.5 otherwise). -/
def calculate_drive_time_between_stops (prev_stop current_stop : Stop)
    (route : RouteData) : ℚ :=
  let segment_time := route.duration / 5
  if prev_stop.kind = "pickup" then segment_time * (1/5)
  else if current_stop.kind = "dropoff" then segment_time * (3/10)
  else segment_time * (1/2)

/-- The day-splitting while loop shared by ELDService._add_driving_entry and
_add_stop_entry: while time remains, either the activity finishes inside the
current day, or an entry is written up to end-of-day, the current log is
sealed, and a fresh log is opened at the next midnight.  The remaining
time shrinks by 24 hours minus one microsecond per sealed day, so the
budget floor+4 covers every run (the first iteration may start mid-day). -/
def split_entry_loop (status location : String) :
    ℕ → ℚ → ℚ → DailyLog → List DailyLog → ℚ × DailyLog × List DailyLog
  | 0, current_time, _, current_log, daily_logs => (current_time, current_log, daily_logs)
  | budget + 1, current_time, remaining_time, current_log, daily_logs =>
    if remaining_time > 0 then
      let end_of_day := endOfDay current_time
      let time_in_day := end_of_day - current_time
      if time_in_day ≥ remaining_time then
        let e : ELDEntry :=
          ⟨status, current_time, current_time + remaining_time, location, remaining_time⟩
        (current_time + remaining_time, current_log.add_entry e, daily_logs)
      else
        let e : ELDEntry := ⟨status, current_time, end_of_day, location, time_in_day⟩
        let sealed := current_log.add_entry e
        let next_midnight := dayStart current_time + 24
        split_entry_loop status location budget next_midnight
          (remaining_time - time_in_day) ⟨dayIndex next_midnight, [], 0, 0⟩
          (daily_logs ++ [sealed])
    else (current_time, current_log, daily_logs)

/-- Iteration budget for the split loop on an activity of the given length. -/
def splitBudget (remaining : ℚ) : ℕ := (⌊remaining / (24 - MICRO)⌋ + 4).toNat

/-- ELDService._add_driving_entry: a single driving entry when the activity
stays within one calendar day, otherwise the day-splitting loop. -/
def add_driving_entry (current_time : ℚ) (current_log : DailyLog)
    (daily_logs : List DailyLog) (drive_time : ℚ) (location : String) :
    ℚ × DailyLog × List DailyLog :=
  let end_time := current_time + drive_time
  if dayIndex current_time ≠ dayIndex end_time then
    split_entry_loop "driving" location (splitBudget drive_time) current_time
      drive_time current_log daily_logs
  else
    (end_time,
      current_log.add_entry ⟨"driving", current_time, end_time, location, drive_time⟩,
      daily_logs)

/-- The duty status derived from a stop kind in ELDService._add_stop_entry. -/
def stopStatus (s : Stop) : String :=
  if s.kind = "pickup" ∨ s.kind = "dropoff" ∨ s.kind = "fuel" then "on_duty"
  else if s.kind = "rest" then "sleeper"
  else "off_duty"

/-- ELDService._add_stop_entry: like the driving entry, with the duty status
derived from the stop kind and the stop duration as the length. -/
def add_stop_entry (current_time : ℚ) (current_log : DailyLog)
    (daily_logs : List DailyLog) (s : Stop) : ℚ × DailyLog × List DailyLog :=
  let status := stopStatus s
  let end_time := current_time + s.duration
  if dayIndex current_time ≠ dayIndex end_time then
    split_entry_loop status s.location.address (splitBudget s.duration) current_time
      s.duration current_log daily_logs
  else
    (end_time,
      current_log.add_entry ⟨status, current_time, end_time, s.location.address, s.duration⟩,
      daily_logs)

/-- The for loop of ELDService.generate_logs: for each stop, first the
driving leg from the previous stop (skipped at the first stop and when the
apportioned time is not positive), then the stop activity itself. -/
def process_stops (route : RouteData) :
    List Stop → Option Stop → ℚ → DailyLog → List DailyLog → ℚ × DailyLog × List DailyLog
  | [], _, current_time, current_log, daily_logs => (current_time, current_log, daily_logs)
  | s :: rest, prev, current_time, current_log, daily_logs =>
    let drive_time :=
      match prev with
      | none => 0
      | some p => calculate_drive_time_between_stops p s route
    let after_drive :=
      if drive_time > 0 then
        add_driving_entry current_time current_log daily_logs drive_time
          (match prev with
           | some p => p.location.address
           | none => "Start Location")
      else (current_time, current_log, daily_logs)
    let after_stop := add_stop_entry after_drive.1 after_drive.2.1 after_drive.2.2 s
    process_stops route rest (some s) after_stop.1 after_stop.2.1 after_stop.2.2

/-- ELDService.generate_logs: merge the stop lists, sweep the timeline from
`start_time`, and append the final open log when it has entries. -/
def generate_logs (route : RouteData) (stops fuel_stops : List Stop)
    (start_time : ℚ) : List DailyLog :=
  let all_stops := merge_and_sort_stops stops fuel_stops
  let initial_log : DailyLog := ⟨dayIndex start_time, [], 0, 0⟩
  let final_state := process_stops route all_stops none start_time initial_log []
  final_state.2.2 ++ (if final_state.2.1.entries = [] then [] else [final_state.2.1])

/-- api/views.py RouteCalculationView.post: the TripRequest is constructed
(and validated) before any service runs; a ValueError becomes a bad-request
response carrying the message verbatim.  The whole planning pipeline is
abstracted as `planner`, so the result on invalid input is independent of
it. -/
def handleRouteRequest (planner : TripRequest → String)
    (cur pick drop : String) (cycle : ℤ) : Except String String :=
  match mkTripRequest cur pick drop cycle with
  | Except.error e => Except.error e
  | Except.ok trip => Except.ok (planner trip)

/-- Sum of the durations of the driving entries of a log entry list. -/
def entriesDriveSum : List ELDEntry → ℚ
  | [] => 0
  | e :: rest => (if e.status = "driving" then e.duration else 0) + entriesDriveSum rest

/-- Sum of the durations of the driving and on_duty entries. -/
def entriesDutySum : List ELDEntry → ℚ
  | [] => 0
  | e :: rest =>
    (if e.status = "driving" ∨ e.status = "on_duty" then e.duration else 0)
      + entriesDutySum rest

/-- Sum of the durations of all entries of a log entry list. -/
def entriesDurationSum : List ELDEntry → ℚ
  | [] => 0
  | e :: rest => e.duration + entriesDurationSum rest

/-- Sum of the durations of all entries across a list of daily logs. -/
def logsDurationSum : List DailyLog → ℚ
  | [] => 0
  | l :: rest => entriesDurationSum l.entries + logsDurationSum rest

/-- Total recorded time of a (current_time, current_log, daily_logs) state:
the open log's entries plus all sealed logs. -/
def stateDurationSum (s : ℚ × DailyLog × List DailyLog) : ℚ :=
  entriesDurationSum s.2.1.entries + logsDurationSum s.2.2

/-- Sum of the durations of a stop list. -/
def stopsDurationSum : List Stop → ℚ
  | [] => 0
  | s :: rest => s.duration + stopsDurationSum rest

/-- The apportioned driving durations of the legs of a stop sequence, one
per consecutive pair, where `prev` is the stop preceding the list (none
before the first stop, whose leg gets no apportioned driving time). -/
def legDriveDurations (route : RouteData) : Option Stop → List Stop → List ℚ
  | _, [] => []
  | none, s :: rest => legDriveDurations route (some s) rest
  | some p, s :: rest =>
    calculate_drive_time_between_stops p s route :: legDriveDurations route (some s) rest

/-- Sum of a list of rationals. -/
def ratListSum : List ℚ → ℚ
  | [] => 0
  | q :: rest => q + ratListSum rest

/-- Modelled from the spec: dutyTimeToday = min(route.durationHours + the
sum of durations of all on-duty-classified stops (pickup, dropoff, fuel)
produced by the Stop Planner, 14).  The planner produces both the
rest-and-boundary stop list and the fuel stop list, so the on-duty stops
here range over both. -/
def spec_duty_time_today (route_data : RouteCalcResult) : ℚ :=
  min (route_data.route.duration + onDutySum (route_data.stops ++ route_data.fuel_stops))
    DAILY_DUTY_LIMIT

/-- Every entry of a daily log starts and ends on the same calendar day. -/
def logOk (l : DailyLog) : Prop :=
  ∀ e ∈ l.entries, dayIndex e.start_time = dayIndex e.end_time

/-- logOk for the open log and every sealed log of a builder state. -/
def stateOk (s : ℚ × DailyLog × List DailyLog) : Prop :=
  logOk s.2.1 ∧ ∀ l ∈ s.2.2, logOk l

/-- The trip of the walkthrough scenario: cycleUsedHours = 45. -/
def scenarioTrip : TripRequest := ⟨"Current", "Pickup", "Dropoff", 45⟩

/-- The route of the walkthrough scenario: 2200 miles, 40 hours. -/
def scenarioRoute : RouteData := ⟨2200, 40, [(0, 0), (10, 10), (20, 20)]⟩

/-- A 1300-mile route used for the one-rest-stop claim. -/
def route1300 : RouteData := ⟨1300, 20, [(0, 0), (10, 10)]⟩

/-- A 1500-mile, 1-hour route whose planner output has one fuel stop, used
to separate the two duty-time formulas. -/
def route1500 : RouteData := ⟨1500, 1, [(0, 0), (1, 1)]⟩

/-- A short route for witnesses: 300 miles, 5 hours. -/
def route300 : RouteData := ⟨300, 5, [(0, 0), (1, 1)]⟩

theorem entriesDriveSum_append (l1 l2 : List ELDEntry) :
    entriesDriveSum (l1 ++ l2) = entriesDriveSum l1 + entriesDriveSum l2 := by
  induction l1 with
  | nil => simp [entriesDriveSum]
  | cons e rest ih => simp [entriesDriveSum, ih]; ring

theorem entriesDutySum_append (l1 l2 : List ELDEntry) :
    entriesDutySum (l1 ++ l2) = entriesDutySum l1 + entriesDutySum l2 := by
  induction l1 with
  | nil => simp [entriesDutySum]
  | cons e rest ih => simp [entriesDutySum, ih]; ring

theorem entriesDurationSum_append (l1 l2 : List ELDEntry) :
    entriesDurationSum (l1 ++ l2) = entriesDurationSum l1 + entriesDurationSum l2 := by
  induction l1 with
  | nil => simp [entriesDurationSum]
  | cons e rest ih => simp [entriesDurationSum, ih]; ring

theorem logsDurationSum_append (l1 l2 : List DailyLog) :
    logsDurationSum (l1 ++ l2) = logsDurationSum l1 + logsDurationSum l2 := by
  induction l1 with
  | nil => simp [logsDurationSum]
  | cons l rest ih => simp [logsDurationSum, ih]; ring

theorem add_entry_foldl (es : List ELDEntry) (log : DailyLog) :
    (es.foldl DailyLog.add_entry log).entries = log.entries ++ es ∧
    (es.foldl DailyLog.add_entry log).total_drive_time
      = log.total_drive_time + entriesDriveSum es ∧
    (es.foldl DailyLog.add_entry log).total_duty_time
      = log.total_duty_time + entriesDutySum es := by
  induction es generalizing log with
  | nil => simp [entriesDriveSum, entriesDutySum]
  | cons e rest ih =>
    simp only [List.foldl_cons]
    obtain ⟨h1, h2, h3⟩ := ih (log.add_entry e)
    refine ⟨?_, ?_, ?_⟩
    · rw [h1]; simp [DailyLog.add_entry]
    · rw [h2]; simp only [DailyLog.add_entry, entriesDriveSum]; ring
    · rw [h3]; simp only [DailyLog.add_entry, entriesDutySum]; ring

/-- C6: a DailyLog built by appending entries through add_entry stores
totalDriveHours equal to the sum of its driving entries' durations and
totalDutyHours equal to the sum of its driving and on_duty entries'
durations. -/
theorem c6_daily_log_totals (d : ℤ) (es : List ELDEntry) :
    (es.foldl DailyLog.add_entry ⟨d, [], 0, 0⟩).total_drive_time
      = entriesDriveSum (es.foldl DailyLog.add_entry ⟨d, [], 0, 0⟩).entries ∧
    (es.foldl DailyLog.add_entry ⟨d, [], 0, 0⟩).total_duty_time
      = entriesDutySum (es.foldl DailyLog.add_entry ⟨d, [], 0, 0⟩).entries := by
  obtain ⟨h1, h2, h3⟩ := add_entry_foldl es ⟨d, [], 0, 0⟩
  rw [h1, h2, h3]
  simp

/-- C10: the TripRequest constructor rejects every cycleUsedHours outside
[0, 70] with the validation message, before any planning runs (the result
is the same for every planner), and accepts every value inside [0, 70]. -/
theorem c10_cycle_validation (cycle : ℤ) (planner : TripRequest → String)
    (cur pick drop : String) :
    (¬ (0 ≤ cycle ∧ cycle ≤ 70) →
      handleRouteRequest planner cur pick drop cycle =
        Except.error "Cycle used must be between 0 and 70 hours") ∧
    ((0 ≤ cycle ∧ cycle ≤ 70) →
      handleRouteRequest planner cur pick drop cycle =
        Except.ok (planner ⟨cur, pick, drop, cycle⟩)) := by
  refine ⟨fun h => ?_, fun h => ?_⟩
  · unfold handleRouteRequest mkTripRequest
    rw [if_neg h]
  · unfold handleRouteRequest mkTripRequest
    rw [if_pos h]

theorem c10_cycle_validation_witness :
    (¬ (0 ≤ (71:ℤ) ∧ (71:ℤ) ≤ 70) ∧
      handleRouteRequest (fun _ => "planned") "a" "b" "c" 71 =
        Except.error "Cycle used must be between 0 and 70 hours") ∧
    ((0 ≤ (45:ℤ) ∧ (45:ℤ) ≤ 70) ∧
      handleRouteRequest (fun _ => "planned") "a" "b" "c" 45 =
        Except.ok "planned") := by
  refine ⟨⟨by decide, (c10_cycle_validation 71 (fun _ => "planned") "a" "b" "c").1 (by decide)⟩,
    ⟨by decide, ?_⟩⟩
  exact (c10_cycle_validation 45 (fun _ => "planned") "a" "b" "c").2 (by decide)

theorem fuel_stops_loop_mem (m d : ℚ) : ∀ (budget : ℕ) (c : ℚ),
    (⌈(d - c) / 1000⌉).toNat ≤ budget →
    (m ∈ fuel_stops_loop budget d c ↔ ∃ k : ℕ, 1 ≤ k ∧ m = c + 1000 * k ∧ m < d) := by
  intro budget
  induction budget with
  | zero =>
    intro c h
    have hdc : d ≤ c := by
      by_contra hlt
      push_neg at hlt
      have hq : (0:ℚ) < (d - c) / 1000 := div_pos (by linarith) (by norm_num)
      have h1 : 0 < ⌈(d - c) / 1000⌉ := Int.ceil_pos.mpr hq
      omega
    simp only [fuel_stops_loop, List.not_mem_nil, false_iff]
    rintro ⟨k, hk, hm, hlt⟩
    have : (1:ℚ) ≤ (k:ℚ) := by exact_mod_cast hk
    nlinarith
  | succ n ih =>
    intro c h
    simp only [fuel_stops_loop]
    by_cases hcd : c < d
    · rw [if_pos hcd]
      have hceil : ⌈(d - (c + 1000)) / 1000⌉ = ⌈(d - c) / 1000⌉ - 1 := by
        have : (d - (c + 1000)) / 1000 = (d - c) / 1000 - 1 := by ring
        rw [this, Int.ceil_sub_one]
      have hpos : 0 < ⌈(d - c) / 1000⌉ :=
        Int.ceil_pos.mpr (div_pos (by linarith) (by norm_num))
      have hrec := ih (c + 1000) (by omega)
      constructor
      · intro hm
        rcases List.mem_append.mp hm with hm1 | hm2
        · by_cases hin : c + 1000 < d
          · rw [if_pos hin] at hm1
            simp at hm1
            exact ⟨1, le_refl 1, by push_cast; linarith [hm1], by rw [hm1]; exact hin⟩
          · rw [if_neg hin] at hm1
            simp at hm1
        · obtain ⟨k, hk, hmk, hlt⟩ := hrec.mp hm2
          refine ⟨k + 1, by omega, ?_, hlt⟩
          push_cast
          linarith
      · rintro ⟨k, hk, hmk, hlt⟩
        rcases eq_or_lt_of_le hk with h1 | h2
        · have hm1 : m = c + 1000 := by
            rw [hmk, ← h1]
            push_cast
            ring
          apply List.mem_append.mpr
          left
          rw [if_pos (by rw [← hm1]; exact hlt)]
          simp [hm1]
        · apply List.mem_append.mpr
          right
          apply hrec.mpr
          refine ⟨k - 1, by omega, ?_, hlt⟩
          have hcast : ((k - 1 : ℕ) : ℚ) = (k : ℚ) - 1 := by
            have : (1:ℕ) ≤ k := hk
            push_cast [this]
            ring
          rw [hcast, hmk]
          ring
    · rw [if_neg hcd]
      simp only [List.not_mem_nil, false_iff]
      rintro ⟨k, hk, hm, hlt⟩
      push_neg at hcd
      have hk1 : (1:ℚ) ≤ (k:ℚ) := by exact_mod_cast hk
      nlinarith

/-- C8: for every route distance D at least 0, the computed fuel-stop mile
markers are exactly the positive multiples of 1000 strictly less than D;
in particular D itself is never a marker, so an exact multiple of 1000 gets
no fuel stop at the endpoint. -/
theorem c8_fuel_stop_markers (D : ℚ) (hD : 0 ≤ D) :
    (∀ m, m ∈ calculate_fuel_stops D 0 ↔
      ∃ k : ℕ, 1 ≤ k ∧ m = 1000 * k ∧ m < D) ∧
    D ∉ calculate_fuel_stops D 0 := by
  have hmain : ∀ m, m ∈ calculate_fuel_stops D 0 ↔
      ∃ k : ℕ, 1 ≤ k ∧ m = 1000 * k ∧ m < D := by
    intro m
    have hb : (⌈(D - 0) / 1000⌉).toNat ≤ (⌊(D - 0) / 1000⌋ + 1).toNat := by
      have := Int.ceil_le_floor_add_one ((D - 0) / 1000)
      omega
    have := fuel_stops_loop_mem m D (⌊(D - 0) / 1000⌋ + 1).toNat 0 hb
    unfold calculate_fuel_stops
    rw [this]
    constructor <;> rintro ⟨k, hk, hm, hlt⟩ <;> exact ⟨k, hk, by linarith [hm], hlt⟩
  refine ⟨hmain, fun hmem => ?_⟩
  obtain ⟨k, _, _, hlt⟩ := (hmain D).mp hmem
  exact lt_irrefl D hlt

theorem c8_fuel_stop_markers_witness :
    (0:ℚ) ≤ 2500 ∧
    (((1000:ℚ) ∈ calculate_fuel_stops 2500 0 ↔
      ∃ k : ℕ, 1 ≤ k ∧ (1000:ℚ) = 1000 * k ∧ (1000:ℚ) < 2500) ∧
      (2500:ℚ) ∉ calculate_fuel_stops 2500 0) :=
  ⟨by norm_num, ⟨(c8_fuel_stop_markers 2500 (by norm_num)).1 1000,
    (c8_fuel_stop_markers 2500 (by norm_num)).2⟩⟩

theorem driveLimitMsg_only_drive (x : ℚ) :
    driveLimitMsg x ≠ CYCLE_EXCEEDED_MSG ∧ driveLimitMsg x ≠ MULTI_DAY_MSG := by
  have e1 : ("Trip requires ").length = 14 := rfl
  have e2 : (" hours of driving, exceeding daily limit of 11 hours").length = 52 := rfl
  have e3 : (".").length = 1 := rfl
  have e4 : (CYCLE_EXCEEDED_MSG).length = 27 := rfl
  have e5 : (MULTI_DAY_MSG).length = 60 := rfl
  constructor <;> intro h <;> have hl := congrArg String.length h <;>
    simp only [driveLimitMsg, formatOneDecimal, String.length_append, e1, e2, e3, e4, e5] at hl <;>
    omega

theorem dutyLimitMsg_only_duty (x : ℚ) :
    dutyLimitMsg x ≠ CYCLE_EXCEEDED_MSG ∧ dutyLimitMsg x ≠ MULTI_DAY_MSG := by
  have e1 : ("Trip requires ").length = 14 := rfl
  have e2 : (" hours of duty, exceeding daily limit of 14 hours").length = 49 := rfl
  have e3 : (".").length = 1 := rfl
  have e4 : (CYCLE_EXCEEDED_MSG).length = 27 := rfl
  have e5 : (MULTI_DAY_MSG).length = 60 := rfl
  constructor <;> intro h <;> have hl := congrArg String.length h <;>
    simp only [dutyLimitMsg, formatOneDecimal, String.length_append, e1, e2, e3, e4, e5] at hl <;>
    omega

theorem check_violations_members (trip : TripRequest) (route : RouteData)
    (drive_time duty_time : ℚ) (h1 : drive_time ≤ 11) (h2 : duty_time ≤ 14) :
    ∀ v ∈ check_violations trip route drive_time duty_time,
      v = CYCLE_EXCEEDED_MSG ∨ v = MULTI_DAY_MSG := by
  intro v hv
  unfold check_violations at hv
  have hd : ¬ (drive_time > DAILY_DRIVE_LIMIT) := by
    simp only [DAILY_DRIVE_LIMIT]; linarith
  have hu : ¬ (duty_time > DAILY_DUTY_LIMIT) := by
    simp only [DAILY_DUTY_LIMIT]; linarith
  rw [if_neg hd, if_neg hu] at hv
  simp only [List.append_nil, List.nil_append, List.mem_append] at hv
  rcases hv with hv | hv
  · left
    by_cases hc : (trip.cycle_used : ℚ) + duty_time > WEEKLY_LIMIT
    · rw [if_pos hc] at hv; simpa using hv
    · rw [if_neg hc] at hv; simp at hv
  · right
    by_cases hm : route.duration > DAILY_DRIVE_LIMIT
    · rw [if_pos hm] at hv; simpa using hv
    · rw [if_neg hm] at hv; simp at hv

/-- C3: for every trip and route, the HOSStatus computed by the compliance
evaluation never contains a daily drive-limit violation message nor a daily
duty-limit violation message, because the estimated drive time is capped at
11 and the estimated duty time at 14 before the comparisons against those
same limits. -/
theorem c3_capped_violations_absent (trip : TripRequest) (route : RouteData)
    (now x : ℚ) :
    driveLimitMsg x ∉
        (calculate_compliance trip (calculate_route route trip now) now).violations ∧
    dutyLimitMsg x ∉
        (calculate_compliance trip (calculate_route route trip now) now).violations := by
  have hv : (calculate_compliance trip (calculate_route route trip now) now).violations
      = check_violations trip (calculate_route route trip now).route
          (min (calculate_route route trip now).route.duration DAILY_DRIVE_LIMIT)
          (calculate_estimated_duty_time (calculate_route route trip now)) := rfl
  have hdrive : min (calculate_route route trip now).route.duration DAILY_DRIVE_LIMIT ≤ 11 := by
    simpa [DAILY_DRIVE_LIMIT] using
      min_le_right (calculate_route route trip now).route.duration DAILY_DRIVE_LIMIT
  have hduty : calculate_estimated_duty_time (calculate_route route trip now) ≤ 14 := by
    unfold calculate_estimated_duty_time
    simpa [DAILY_DUTY_LIMIT] using
      min_le_right ((calculate_route route trip now).route.duration +
        onDutySum (calculate_route route trip now).stops) DAILY_DUTY_LIMIT
  have hmem := check_violations_members trip (calculate_route route trip now).route
    (min (calculate_route route trip now).route.duration DAILY_DRIVE_LIMIT)
    (calculate_estimated_duty_time (calculate_route route trip now)) hdrive hduty
  rw [hv]
  constructor <;> intro hin
  · rcases hmem _ hin with h | h
    · exact (driveLimitMsg_only_drive x).1 h
    · exact (driveLimitMsg_only_drive x).2 h
  · rcases hmem _ hin with h | h
    · exact (dutyLimitMsg_only_duty x).1 h
    · exact (dutyLimitMsg_only_duty x).2 h

theorem rest_stops_loop_kind (route : RouteData) : ∀ (budget : ℕ) (rem trav t : ℚ),
    ∀ s ∈ (rest_stops_loop route budget rem trav t).1,
      s.kind = "rest" ∧ s.duration = 10 := by
  intro budget
  induction budget with
  | zero => intro rem trav t s hs; simp [rest_stops_loop] at hs
  | succ n ih =>
    intro rem trav t s hs
    simp only [rest_stops_loop] at hs
    by_cases h1 : rem > 0
    · rw [if_pos h1] at hs
      by_cases h2 : trav + min (AVERAGE_SPEED * 11) rem < route.distance
      · simp only [h2, if_true] at hs
        rcases List.mem_cons.mp hs with h | h
        · rw [h]
          exact ⟨rfl, rfl⟩
        · exact ih _ _ _ s h
      · simp only [h2, if_false] at hs
        exact ih _ _ _ s hs
    · rw [if_neg h1] at hs
      simp at hs

theorem onDutySum_append (l1 l2 : List Stop) :
    onDutySum (l1 ++ l2) = onDutySum l1 + onDutySum l2 := by
  induction l1 with
  | nil => simp [onDutySum]
  | cons s rest ih => simp [onDutySum, ih]; ring

theorem onDutySum_rests (l : List Stop) (h : ∀ s ∈ l, s.kind = "rest") :
    onDutySum l = 0 := by
  induction l with
  | nil => simp [onDutySum]
  | cons s rest ih =>
    have hs := h s (List.mem_cons_self s rest)
    have : ¬ (s.kind = "pickup" ∨ s.kind = "dropoff" ∨ s.kind = "fuel") := by
      rw [hs]; simp
    simp only [onDutySum, if_neg this]
    rw [ih (fun x hx => h x (List.mem_cons_of_mem s hx))]
    ring

/-- C4 (amended): the HOS checker's dutyTimeToday equals
min(route.durationHours + 2, 14): the planner's main stop list contributes
exactly the pickup hour and the dropoff hour, while the fuel stops live in
the separate fuel list that the duty-time estimate never iterates. -/
theorem c4_duty_time_amended (route : RouteData) (trip : TripRequest) (now : ℚ) :
    calculate_estimated_duty_time (calculate_route route trip now) =
      min (route.duration + 2) 14 := by
  unfold calculate_estimated_duty_time calculate_route calculate_rest_stops
  simp only [onDutySum, List.append_eq, onDutySum_append]
  rw [onDutySum_rests _ (fun s hs => (rest_stops_loop_kind route _ _ _ _ s hs).1)]
  norm_num [PICKUP_DURATION, DROPOFF_DURATION, DAILY_DUTY_LIMIT]

theorem rest_stops_loop_no_rest (route : RouteData) : ∀ (budget : ℕ) (rem trav t : ℚ),
    rem ≤ 605 → route.distance ≤ trav + rem →
    (rest_stops_loop route budget rem trav t).1 = [] := by
  intro budget
  induction budget with
  | zero => intro rem trav t h1 h2; simp [rest_stops_loop]
  | succ n ih =>
    intro rem trav t h1 h2
    simp only [rest_stops_loop]
    by_cases h3 : rem > 0
    · rw [if_pos h3]
      have hA : AVERAGE_SPEED * 11 = (605:ℚ) := by norm_num [AVERAGE_SPEED]
      have hmin : min (AVERAGE_SPEED * 11) rem = rem := by
        rw [hA]
        exact min_eq_right h1
      have hno : ¬ (trav + min (AVERAGE_SPEED * 11) rem < route.distance) := by
        rw [hmin]
        exact not_lt.mpr h2
      rw [if_neg hno]
      rw [hmin]
      apply ih
      · norm_num
      · simp only [sub_self]
        linarith
    · rw [if_neg h3]

/-- C9: for every route with distanceMiles at most 605, durationHours at
most 11 and a non-empty coordinate list, the planner emits exactly two
stops, a pickup followed by a dropoff, and zero rest stops. -/
theorem c9_short_route_two_stops (route : RouteData) (trip : TripRequest) (now : ℚ)
    (hdist : route.distance ≤ 605) (_hdur : route.duration ≤ 11)
    (_hcoords : route.coordinates ≠ []) :
    (calculate_rest_stops route trip now).map (fun s => s.kind) =
      ["pickup", "dropoff"] := by
  simp only [calculate_rest_stops]
  rw [rest_stops_loop_no_rest route _ route.distance 0 (now + PICKUP_DURATION) hdist
    (by linarith)]
  simp

theorem c9_short_route_two_stops_witness :
    route300.distance ≤ 605 ∧ route300.duration ≤ 11 ∧ route300.coordinates ≠ [] ∧
    (calculate_rest_stops route300 scenarioTrip 0).map (fun s => s.kind) =
      ["pickup", "dropoff"] :=
  ⟨by norm_num [route300], by norm_num [route300], by simp [route300],
    c9_short_route_two_stops route300 scenarioTrip 0 (by norm_num [route300])
      (by norm_num [route300]) (by simp [route300])⟩

/-- C2 (corrected): the claim of exactly one rest stop is false for a
1300-mile route — the loop inserts rests after 605 and 1210 miles, both
strictly short of 1300, so two rest stops are emitted. -/
theorem c2_route1300_counterexample :
    ((calculate_rest_stops route1300 scenarioTrip 0).filter
        (fun s => s.kind == "rest")).length ≠ 1 := by
  have h : ((calculate_rest_stops route1300 scenarioTrip 0).filter
      (fun s => s.kind == "rest")).length = 2 := by
    simp only [calculate_rest_stops]
    norm_num [route1300, AVERAGE_SPEED, rest_stops_loop, min_def, PICKUP_DURATION,
      List.filter, show ("pickup" == "rest") = false from rfl,
      show ("dropoff" == "rest") = false from rfl,
      show ("rest" == "rest") = true from rfl]
  rw [h]
  norm_num

/-- C2 (amended): for every route with distanceMiles = 1300, whatever the
duration and coordinates, the planner emits exactly two rest stops, and the
fuel-stop computation yields the single mile marker 1000, hence one fuel
stop. -/
theorem c2_route1300_amended (route : RouteData) (trip : TripRequest) (now : ℚ)
    (hdist : route.distance = 1300) :
    ((calculate_rest_stops route trip now).filter
        (fun s => s.kind == "rest")).length = 2 ∧
    calculate_fuel_stops route.distance 0 = [1000] ∧
    (service_calculate_fuel_stops route now).map (fun s => s.kind) = ["fuel"] := by
  obtain ⟨D, dur, coords⟩ := route
  simp only at hdist
  subst hdist
  refine ⟨?_, ?_, ?_⟩
  · simp only [calculate_rest_stops]
    norm_num [AVERAGE_SPEED, rest_stops_loop, min_def, PICKUP_DURATION, List.filter,
      show ("pickup" == "rest") = false from rfl,
      show ("dropoff" == "rest") = false from rfl,
      show ("rest" == "rest") = true from rfl]
  · norm_num [calculate_fuel_stops, fuel_stops_loop]
  · norm_num [service_calculate_fuel_stops, calculate_fuel_stops, fuel_stops_loop]

theorem c2_route1300_amended_witness :
    route1300.distance = 1300 ∧
    (((calculate_rest_stops route1300 scenarioTrip 0).filter
        (fun s => s.kind == "rest")).length = 2 ∧
      calculate_fuel_stops route1300.distance 0 = [1000] ∧
      (service_calculate_fuel_stops route1300 0).map (fun s => s.kind) = ["fuel"]) :=
  ⟨by norm_num [route1300],
    c2_route1300_amended route1300 scenarioTrip 0 (by norm_num [route1300])⟩

/-- C1 (corrected): at the walkthrough scenario the violations list is
exactly the multi-day planning message; in particular it does not contain
the daily drive-limit message, because the estimated drive time has been
capped at 11 before the comparison. -/
theorem c1_scenario_counterexample :
    driveLimitMsg 11 ∉
      (calculate_compliance scenarioTrip
        (calculate_route scenarioRoute scenarioTrip 0) 0).violations := by
  have hv : (calculate_compliance scenarioTrip
      (calculate_route scenarioRoute scenarioTrip 0) 0).violations = [MULTI_DAY_MSG] := by
    norm_num [scenarioRoute, scenarioTrip, calculate_compliance, calculate_route,
      calculate_rest_stops, rest_stops_loop, AVERAGE_SPEED, PICKUP_DURATION,
      DROPOFF_DURATION, min_def, calculate_estimated_duty_time, onDutySum,
      check_violations, DAILY_DRIVE_LIMIT, DAILY_DUTY_LIMIT, WEEKLY_LIMIT,
      show ("rest":String) ≠ "pickup" from by decide,
      show ("rest":String) ≠ "dropoff" from by decide,
      show ("rest":String) ≠ "fuel" from by decide]
  rw [hv]
  simp only [List.mem_singleton]
  exact (driveLimitMsg_only_drive 11).2

/-- C1 (amended): for cycleUsedHours = 45 and a 2200-mile, 40-hour route,
the planner emits a pickup, exactly three rest stops and a dropoff, the
fuel-stop list holds exactly two stops at mile markers 1000 and 2000, and
the HOS evaluation reports exactly the multi-day-planning violation — the
daily drive-limit message is absent since the drive estimate is capped at
11 hours. -/
theorem c1_scenario_amended :
    (calculate_rest_stops scenarioRoute scenarioTrip 0).map (fun s => s.kind) =
      ["pickup", "rest", "rest", "rest", "dropoff"] ∧
    calculate_fuel_stops scenarioRoute.distance 0 = [1000, 2000] ∧
    (service_calculate_fuel_stops scenarioRoute 0).map (fun s => s.kind) =
      ["fuel", "fuel"] ∧
    (calculate_compliance scenarioTrip
        (calculate_route scenarioRoute scenarioTrip 0) 0).violations = [MULTI_DAY_MSG] := by
  refine ⟨?_, ?_, ?_, ?_⟩
  · simp only [calculate_rest_stops]
    norm_num [scenarioRoute, scenarioTrip, AVERAGE_SPEED, rest_stops_loop, min_def,
      PICKUP_DURATION]
  · norm_num [scenarioRoute, calculate_fuel_stops, fuel_stops_loop]
  · norm_num [scenarioRoute, service_calculate_fuel_stops, calculate_fuel_stops,
      fuel_stops_loop]
  · norm_num [scenarioRoute, scenarioTrip, calculate_compliance, calculate_route,
      calculate_rest_stops, rest_stops_loop, AVERAGE_SPEED, PICKUP_DURATION,
      DROPOFF_DURATION, min_def, calculate_estimated_duty_time, onDutySum,
      check_violations, DAILY_DRIVE_LIMIT, DAILY_DUTY_LIMIT, WEEKLY_LIMIT,
      show ("rest":String) ≠ "pickup" from by decide,
      show ("rest":String) ≠ "dropoff" from by decide,
      show ("rest":String) ≠ "fuel" from by decide]

/-- C4 (corrected): on a 1500-mile, 1-hour route the code's duty-time
estimate is 3 (duration plus pickup and dropoff only), while the claimed
formula that also counts the planner's fuel stop yields 3.5. -/
theorem c4_duty_time_counterexample :
    calculate_estimated_duty_time (calculate_route route1500 scenarioTrip 0) ≠
      spec_duty_time_today (calculate_route route1500 scenarioTrip 0) := by
  have h1 : calculate_estimated_duty_time (calculate_route route1500 scenarioTrip 0) = 3 := by
    simp only [calculate_route, calculate_rest_stops, calculate_estimated_duty_time]
    norm_num [route1500, scenarioTrip, AVERAGE_SPEED, rest_stops_loop, min_def,
      PICKUP_DURATION, DROPOFF_DURATION, DAILY_DUTY_LIMIT, onDutySum,
      show ("rest":String) ≠ "pickup" from by decide,
      show ("rest":String) ≠ "dropoff" from by decide,
      show ("rest":String) ≠ "fuel" from by decide]
  have h2 : spec_duty_time_today (calculate_route route1500 scenarioTrip 0) = 7/2 := by
    simp only [calculate_route, calculate_rest_stops, spec_duty_time_today,
      service_calculate_fuel_stops]
    norm_num [route1500, scenarioTrip, AVERAGE_SPEED, rest_stops_loop, min_def,
      PICKUP_DURATION, DROPOFF_DURATION, FUEL_STOP_DURATION, DAILY_DUTY_LIMIT,
      onDutySum, calculate_fuel_stops, fuel_stops_loop,
      show ("rest":String) ≠ "pickup" from by decide,
      show ("rest":String) ≠ "dropoff" from by decide,
      show ("rest":String) ≠ "fuel" from by decide]
  rw [h1, h2]
  norm_num

theorem dayStart_le (t : ℚ) : dayStart t ≤ t := by
  unfold dayStart dayIndex
  have h := Int.floor_le (t / 24)
  have h2 : 24 * ((⌊t / 24⌋ : ℚ)) ≤ 24 * (t / 24) := by linarith
  have h3 : 24 * (t / 24) = t := by ring
  linarith

theorem lt_dayStart_add (t : ℚ) : t < dayStart t + 24 := by
  unfold dayStart dayIndex
  have h := Int.lt_floor_add_one (t / 24)
  have h2 : 24 * (t / 24) < 24 * ((⌊t / 24⌋ : ℚ) + 1) := by linarith
  have h3 : 24 * (t / 24) = t := by ring
  linarith

theorem endOfDay_ge (t : ℚ) : dayStart t ≤ endOfDay t := by
  unfold endOfDay
  have h : MICRO < 24 := by norm_num [MICRO]
  linarith

theorem endOfDay_lt (t : ℚ) : endOfDay t < dayStart t + 24 := by
  unfold endOfDay
  norm_num [MICRO]

theorem dayIndex_eq_of_mem (t x : ℚ) (h1 : dayStart t ≤ x) (h2 : x < dayStart t + 24) :
    dayIndex x = dayIndex t := by
  unfold dayStart dayIndex at *
  rw [Int.floor_eq_iff]
  constructor
  · rw [le_div_iff (by norm_num : (0:ℚ) < 24)]
    linarith
  · rw [div_lt_iff (by norm_num : (0:ℚ) < 24)]
    linarith

theorem logOk_add_entry (l : DailyLog) (e : ELDEntry) (hl : logOk l)
    (he : dayIndex e.start_time = dayIndex e.end_time) : logOk (l.add_entry e) := by
  intro x hx
  unfold DailyLog.add_entry at hx
  simp only [List.mem_append, List.mem_singleton] at hx
  rcases hx with hx | hx
  · exact hl x hx
  · rw [hx]
    exact he

theorem logOk_empty (d : ℤ) : logOk ⟨d, [], 0, 0⟩ := by
  intro e he
  simp at he

theorem split_entry_loop_stateOk (status loc : String) : ∀ (budget : ℕ) (t r : ℚ)
    (log : DailyLog) (logs : List DailyLog), logOk log → (∀ l ∈ logs, logOk l) →
    stateOk (split_entry_loop status loc budget t r log logs) := by
  intro budget
  induction budget with
  | zero =>
    intro t r log logs h1 h2
    exact ⟨h1, h2⟩
  | succ n ih =>
    intro t r log logs h1 h2
    simp only [split_entry_loop]
    by_cases hr : r > 0
    · rw [if_pos hr]
      by_cases htid : endOfDay t - t ≥ r
      · rw [if_pos htid]
        refine ⟨?_, h2⟩
        apply logOk_add_entry _ _ h1
        exact (dayIndex_eq_of_mem t (t + r) (by linarith [dayStart_le t])
          (by linarith [endOfDay_lt t])).symm
      · rw [if_neg htid]
        apply ih
        · exact logOk_empty _
        · intro l hl
          rcases List.mem_append.mp hl with hl | hl
          · exact h2 l hl
          · simp only [List.mem_singleton] at hl
            rw [hl]
            apply logOk_add_entry _ _ h1
            exact (dayIndex_eq_of_mem t (endOfDay t) (endOfDay_ge t) (endOfDay_lt t)).symm
    · rw [if_neg hr]
      exact ⟨h1, h2⟩

theorem add_driving_entry_stateOk (t : ℚ) (log : DailyLog) (logs : List DailyLog)
    (r : ℚ) (loc : String) (h1 : logOk log) (h2 : ∀ l ∈ logs, logOk l) :
    stateOk (add_driving_entry t log logs r loc) := by
  unfold add_driving_entry
  by_cases hd : dayIndex t ≠ dayIndex (t + r)
  · rw [if_pos hd]
    exact split_entry_loop_stateOk _ _ _ _ _ _ _ h1 h2
  · rw [if_neg hd]
    push_neg at hd
    exact ⟨logOk_add_entry _ _ h1 hd, h2⟩

theorem add_stop_entry_stateOk (t : ℚ) (log : DailyLog) (logs : List DailyLog)
    (s : Stop) (h1 : logOk log) (h2 : ∀ l ∈ logs, logOk l) :
    stateOk (add_stop_entry t log logs s) := by
  unfold add_stop_entry
  by_cases hd : dayIndex t ≠ dayIndex (t + s.duration)
  · rw [if_pos hd]
    exact split_entry_loop_stateOk _ _ _ _ _ _ _ h1 h2
  · rw [if_neg hd]
    push_neg at hd
    exact ⟨logOk_add_entry _ _ h1 hd, h2⟩

theorem process_stops_stateOk (route : RouteData) : ∀ (stops : List Stop)
    (prev : Option Stop) (t : ℚ) (log : DailyLog) (logs : List DailyLog),
    logOk log → (∀ l ∈ logs, logOk l) →
    stateOk (process_stops route stops prev t log logs) := by
  intro stops
  induction stops with
  | nil =>
    intro prev t log logs h1 h2
    exact ⟨h1, h2⟩
  | cons s rest ih =>
    intro prev t log logs h1 h2
    simp only [process_stops]
    rcases prev with _ | p
    · rw [if_neg (by norm_num : ¬ ((0:ℚ) > 0))]
      have hA := add_stop_entry_stateOk t log logs s h1 h2
      exact ih (some s) _ _ _ hA.1 hA.2
    · by_cases hdt : calculate_drive_time_between_stops p s route > 0
      · rw [if_pos hdt]
        have hB := add_driving_entry_stateOk t log logs
          (calculate_drive_time_between_stops p s route) p.location.address h1 h2
        have hA := add_stop_entry_stateOk
          (add_driving_entry t log logs
            (calculate_drive_time_between_stops p s route) p.location.address).1
          (add_driving_entry t log logs
            (calculate_drive_time_between_stops p s route) p.location.address).2.1
          (add_driving_entry t log logs
            (calculate_drive_time_between_stops p s route) p.location.address).2.2
          s hB.1 hB.2
        exact ih (some s) _ _ _ hA.1 hA.2
      · rw [if_neg hdt]
        have hA := add_stop_entry_stateOk t log logs s h1 h2
        exact ih (some s) _ _ _ hA.1 hA.2

/-- C5: every LogEntry of every DailyLog produced by the log builder starts
and ends on the same calendar day. -/
theorem c5_entries_same_day (route : RouteData) (stops fuel_stops : List Stop)
    (start_time : ℚ) :
    ∀ log ∈ generate_logs route stops fuel_stops start_time,
      ∀ e ∈ log.entries, dayIndex e.start_time = dayIndex e.end_time := by
  intro log hlog e he
  simp only [generate_logs] at hlog
  have hstate := process_stops_stateOk route (merge_and_sort_stops stops fuel_stops)
    none start_time ⟨dayIndex start_time, [], 0, 0⟩ [] (logOk_empty _) (by intro l hl; simp at hl)
  rcases List.mem_append.mp hlog with h | h
  · exact hstate.2 log h e he
  · by_cases hemp : (process_stops route (merge_and_sort_stops stops fuel_stops)
        none start_time ⟨dayIndex start_time, [], 0, 0⟩ []).2.1.entries = []
    · rw [if_pos hemp] at h
      simp at h
    · rw [if_neg hemp] at h
      simp only [List.mem_singleton] at h
      rw [h] at he
      exact hstate.1 e he

theorem c5_entries_same_day_witness :
    dayIndex ((((generate_logs route300 [] [⟨"fuel", ⟨"Fuel Stop", 0, 0⟩, 0, 1/2, ""⟩] 0).getD 0
        ⟨0, [], 0, 0⟩).entries.getD 0 ⟨"", 0, 0, "", 0⟩).start_time)
      = dayIndex ((((generate_logs route300 [] [⟨"fuel", ⟨"Fuel Stop", 0, 0⟩, 0, 1/2, ""⟩] 0).getD 0
        ⟨0, [], 0, 0⟩).entries.getD 0 ⟨"", 0, 0, "", 0⟩).end_time) := by
  have hL : generate_logs route300 [] [⟨"fuel", ⟨"Fuel Stop", 0, 0⟩, 0, 1/2, ""⟩] 0 =
      [⟨0, [⟨"on_duty", 0, 1/2, "Fuel Stop", 1/2⟩], 0, 1/2⟩] := by
    norm_num [generate_logs, merge_and_sort_stops, process_stops, add_stop_entry,
      stopStatus, dayIndex, DailyLog.add_entry, List.filter, route300,
      show ("on_duty":String) ≠ "driving" from by decide,
      show ("fuel":String) ≠ "pickup" from by decide,
      show ("fuel":String) ≠ "dropoff" from by decide]
  exact c5_entries_same_day route300 [] [⟨"fuel", ⟨"Fuel Stop", 0, 0⟩, 0, 1/2, ""⟩] 0
    ((generate_logs route300 [] [⟨"fuel", ⟨"Fuel Stop", 0, 0⟩, 0, 1/2, ""⟩] 0).getD 0
      ⟨0, [], 0, 0⟩)
    (by rw [hL]; simp)
    (((generate_logs route300 [] [⟨"fuel", ⟨"Fuel Stop", 0, 0⟩, 0, 1/2, ""⟩] 0).getD 0
      ⟨0, [], 0, 0⟩).entries.getD 0 ⟨"", 0, 0, "", 0⟩)
    (by rw [hL]; simp)

theorem state_snd_fst (a : ℚ) (b : DailyLog) (c : List DailyLog) : (a, b, c).2.1 = b := rfl

theorem state_snd_snd (a : ℚ) (b : DailyLog) (c : List DailyLog) : (a, b, c).2.2 = c := rfl

theorem mk_log_entries (d : ℤ) (es : List ELDEntry) (a b : ℚ) :
    (({ date := d, entries := es, total_drive_time := a, total_duty_time := b } : DailyLog)).entries = es := rfl

theorem entriesDurationSum_add_entry (log : DailyLog) (e : ELDEntry) :
    entriesDurationSum (log.add_entry e).entries
      = entriesDurationSum log.entries + e.duration := by
  unfold DailyLog.add_entry
  simp only [entriesDurationSum_append, entriesDurationSum]
  ring

theorem split_entry_loop_sum_mid (status loc : String) : ∀ (budget : ℕ) (k : ℤ) (r : ℚ)
    (log : DailyLog) (logs : List DailyLog),
    0 < r → (⌈r / (24 - MICRO)⌉).toNat + 1 ≤ budget →
    entriesDurationSum (split_entry_loop status loc budget (24 * (k:ℚ)) r log logs).2.1.entries
        + logsDurationSum (split_entry_loop status loc budget (24 * (k:ℚ)) r log logs).2.2
      = entriesDurationSum log.entries + logsDurationSum logs + r := by
  intro budget
  induction budget with
  | zero =>
    intro k r log logs hr hb
    exfalso
    have hc : 0 < ⌈r / (24 - MICRO)⌉ :=
      Int.ceil_pos.mpr (div_pos hr (by norm_num [MICRO]))
    omega
  | succ n ih =>
    intro k r log logs hr hb
    have hds : dayStart (24 * (k:ℚ)) = 24 * (k:ℚ) := by
      unfold dayStart dayIndex
      rw [show (24 * (k:ℚ)) / 24 = ((k:ℤ):ℚ) from by push_cast; ring]
      rw [Int.floor_intCast]
    have heod : endOfDay (24 * (k:ℚ)) = 24 * (k:ℚ) + (24 - MICRO) := by
      unfold endOfDay
      rw [hds]
      ring
    simp only [split_entry_loop]
    rw [if_pos hr]
    by_cases hc : endOfDay (24 * (k:ℚ)) - 24 * (k:ℚ) ≥ r
    · rw [if_pos hc]
      simp only [state_snd_fst, state_snd_snd]
      rw [entriesDurationSum_add_entry]
      ring
    · rw [if_neg hc]
      have htid : endOfDay (24 * (k:ℚ)) - 24 * (k:ℚ) = 24 - MICRO := by
        rw [heod]; ring
      have hr2 : 0 < r - (endOfDay (24 * (k:ℚ)) - 24 * (k:ℚ)) := by
        rw [htid]
        rw [htid] at hc
        linarith [not_le.mp hc]
      have harg : dayStart (24 * (k:ℚ)) + 24 = 24 * (((k + 1 : ℤ)):ℚ) := by
        rw [hds]; push_cast; ring
      have hceil : ⌈(r - (endOfDay (24 * (k:ℚ)) - 24 * (k:ℚ))) / (24 - MICRO)⌉
          = ⌈r / (24 - MICRO)⌉ - 1 := by
        rw [htid]
        rw [show (r - (24 - MICRO)) / (24 - MICRO) = r / (24 - MICRO) - 1 from by
          rw [sub_div, div_self (by norm_num [MICRO] : (24 - MICRO) ≠ (0:ℚ))]]
        exact Int.ceil_sub_one _
      have hbud : (⌈(r - (endOfDay (24 * (k:ℚ)) - 24 * (k:ℚ))) / (24 - MICRO)⌉).toNat + 1 ≤ n := by
        have hcpos : 0 < ⌈r / (24 - MICRO)⌉ :=
          Int.ceil_pos.mpr (div_pos hr (by norm_num [MICRO]))
        omega
      rw [harg]
      rw [ih (k + 1) _ _ _ hr2 hbud]
      simp only [mk_log_entries]
      rw [logsDurationSum_append]
      simp only [entriesDurationSum, logsDurationSum, entriesDurationSum_add_entry]
      ring

theorem state_fst (a : ℚ) (b : DailyLog) (c : List DailyLog) : (a, b, c).1 = a := rfl

theorem mk_entry_duration (s : String) (a b : ℚ) (l : String) (d : ℚ) :
    (({ status := s, start_time := a, end_time := b, location := l, duration := d } : ELDEntry)).duration = d := rfl

theorem split_entry_loop_sum (status loc : String) (t r : ℚ) (log : DailyLog)
    (logs : List DailyLog) (hr : 0 < r) :
    entriesDurationSum (split_entry_loop status loc (splitBudget r) t r log logs).2.1.entries
        + logsDurationSum (split_entry_loop status loc (splitBudget r) t r log logs).2.2
      = entriesDurationSum log.entries + logsDurationSum logs + r := by
  have hfl : 0 ≤ ⌊r / (24 - MICRO)⌋ :=
    Int.floor_nonneg.mpr (div_nonneg (le_of_lt hr) (by norm_num [MICRO]))
  have hn : splitBudget r = (⌊r / (24 - MICRO)⌋ + 3).toNat + 1 := by
    unfold splitBudget
    omega
  rw [hn]
  simp only [split_entry_loop]
  rw [if_pos hr]
  by_cases hc : endOfDay t - t ≥ r
  · rw [if_pos hc]
    simp only [state_snd_fst, state_snd_snd]
    rw [entriesDurationSum_add_entry]
    simp only [mk_entry_duration]
    ring
  · rw [if_neg hc]
    have harg : dayStart t + 24 = 24 * (((dayIndex t + 1 : ℤ)):ℚ) := by
      unfold dayStart
      push_cast
      ring
    have hr2 : 0 < r - (endOfDay t - t) := by linarith [not_le.mp hc]
    have hmic : -MICRO < endOfDay t - t := by
      have hlt := lt_dayStart_add t
      unfold endOfDay
      linarith
    have hle : r - (endOfDay t - t) < r + MICRO := by linarith
    have h24 : (0:ℚ) < 24 - MICRO := by norm_num [MICRO]
    have hbound : ⌈(r - (endOfDay t - t)) / (24 - MICRO)⌉ ≤ ⌈r / (24 - MICRO)⌉ + 1 := by
      have h1 : (r - (endOfDay t - t)) / (24 - MICRO) ≤ (r + MICRO) / (24 - MICRO) :=
        (div_le_div_right h24).mpr (le_of_lt hle)
      have h2 : (r + MICRO) / (24 - MICRO) ≤ r / (24 - MICRO) + 1 := by
        rw [add_div]
        have h3 : MICRO / (24 - MICRO) ≤ 1 := by
          rw [div_le_one h24]
          norm_num [MICRO]
        linarith
      calc ⌈(r - (endOfDay t - t)) / (24 - MICRO)⌉
          ≤ ⌈r / (24 - MICRO) + 1⌉ := Int.ceil_mono (le_trans h1 h2)
        _ = ⌈r / (24 - MICRO)⌉ + 1 := Int.ceil_add_one _
    have hclf : ⌈r / (24 - MICRO)⌉ ≤ ⌊r / (24 - MICRO)⌋ + 1 :=
      Int.ceil_le_floor_add_one _
    have hbud : (⌈(r - (endOfDay t - t)) / (24 - MICRO)⌉).toNat + 1
        ≤ (⌊r / (24 - MICRO)⌋ + 3).toNat := by
      omega
    rw [harg]
    rw [split_entry_loop_sum_mid status loc _ (dayIndex t + 1) _ _ _ hr2 hbud]
    simp only [mk_log_entries]
    rw [logsDurationSum_append]
    simp only [entriesDurationSum, logsDurationSum, entriesDurationSum_add_entry]
    ring

theorem add_driving_entry_sum (t : ℚ) (log : DailyLog) (logs : List DailyLog)
    (r : ℚ) (loc : String) (hr : 0 < r) :
    entriesDurationSum (add_driving_entry t log logs r loc).2.1.entries
        + logsDurationSum (add_driving_entry t log logs r loc).2.2
      = entriesDurationSum log.entries + logsDurationSum logs + r := by
  unfold add_driving_entry
  by_cases hd : dayIndex t ≠ dayIndex (t + r)
  · rw [if_pos hd]
    exact split_entry_loop_sum _ _ _ _ _ _ hr
  · rw [if_neg hd]
    simp only [state_snd_fst, state_snd_snd]
    rw [entriesDurationSum_add_entry]
    simp only [mk_entry_duration]
    ring

theorem add_stop_entry_sum (t : ℚ) (log : DailyLog) (logs : List DailyLog)
    (s : Stop) (hs : 0 ≤ s.duration) :
    entriesDurationSum (add_stop_entry t log logs s).2.1.entries
        + logsDurationSum (add_stop_entry t log logs s).2.2
      = entriesDurationSum log.entries + logsDurationSum logs + s.duration := by
  unfold add_stop_entry
  by_cases hd : dayIndex t ≠ dayIndex (t + s.duration)
  · rw [if_pos hd]
    have hpos : 0 < s.duration := by
      rcases lt_or_eq_of_le hs with h | h
      · exact h
      · exfalso
        apply hd
        rw [← h]
        simp
    exact split_entry_loop_sum _ _ _ _ _ _ hpos
  · rw [if_neg hd]
    simp only [state_snd_fst, state_snd_snd]
    rw [entriesDurationSum_add_entry]
    ring

theorem drive_time_nonneg (p s : Stop) (route : RouteData) (h : 0 ≤ route.duration) :
    0 ≤ calculate_drive_time_between_stops p s route := by
  unfold calculate_drive_time_between_stops
  have hseg : 0 ≤ route.duration / 5 := div_nonneg h (by norm_num)
  split_ifs <;> exact mul_nonneg hseg (by norm_num)

theorem process_stops_sum (route : RouteData) (hdur : 0 ≤ route.duration) :
    ∀ (stops : List Stop) (prev : Option Stop) (t : ℚ) (log : DailyLog)
      (logs : List DailyLog), (∀ s ∈ stops, 0 ≤ s.duration) →
    entriesDurationSum (process_stops route stops prev t log logs).2.1.entries
        + logsDurationSum (process_stops route stops prev t log logs).2.2
      = entriesDurationSum log.entries + logsDurationSum logs
        + ratListSum (legDriveDurations route prev stops)
        + stopsDurationSum stops := by
  intro stops
  induction stops with
  | nil =>
    intro prev t log logs hall
    rcases prev with _ | p <;>
      simp [process_stops, legDriveDurations, ratListSum, stopsDurationSum]
  | cons s rest ih =>
    intro prev t log logs hall
    have hs0 : 0 ≤ s.duration := hall s (List.mem_cons_self s rest)
    have hrest : ∀ x ∈ rest, 0 ≤ x.duration :=
      fun x hx => hall x (List.mem_cons_of_mem s hx)
    rcases prev with _ | p
    · simp only [process_stops]
      rw [if_neg (by norm_num : ¬ ((0:ℚ) > 0))]
      simp only [state_fst, state_snd_fst, state_snd_snd]
      rw [ih (some s) (add_stop_entry t log logs s).1 (add_stop_entry t log logs s).2.1
        (add_stop_entry t log logs s).2.2 hrest]
      rw [add_stop_entry_sum t log logs s hs0]
      simp only [legDriveDurations, stopsDurationSum]
      ring
    · simp only [process_stops]
      by_cases hdt : calculate_drive_time_between_stops p s route > 0
      · rw [if_pos hdt]
        rw [ih (some s)
          (add_stop_entry
            (add_driving_entry t log logs (calculate_drive_time_between_stops p s route)
              p.location.address).1
            (add_driving_entry t log logs (calculate_drive_time_between_stops p s route)
              p.location.address).2.1
            (add_driving_entry t log logs (calculate_drive_time_between_stops p s route)
              p.location.address).2.2 s).1
          (add_stop_entry
            (add_driving_entry t log logs (calculate_drive_time_between_stops p s route)
              p.location.address).1
            (add_driving_entry t log logs (calculate_drive_time_between_stops p s route)
              p.location.address).2.1
            (add_driving_entry t log logs (calculate_drive_time_between_stops p s route)
              p.location.address).2.2 s).2.1
          (add_stop_entry
            (add_driving_entry t log logs (calculate_drive_time_between_stops p s route)
              p.location.address).1
            (add_driving_entry t log logs (calculate_drive_time_between_stops p s route)
              p.location.address).2.1
            (add_driving_entry t log logs (calculate_drive_time_between_stops p s route)
              p.location.address).2.2 s).2.2 hrest]
        rw [add_stop_entry_sum _ _ _ s hs0]
        rw [add_driving_entry_sum t log logs
          (calculate_drive_time_between_stops p s route) p.location.address hdt]
        simp only [legDriveDurations, ratListSum, stopsDurationSum]
        ring
      · rw [if_neg hdt]
        have hdt0 : calculate_drive_time_between_stops p s route = 0 :=
          le_antisymm (not_lt.mp hdt) (drive_time_nonneg p s route hdur)
        simp only [state_fst, state_snd_fst, state_snd_snd]
        rw [ih (some s) (add_stop_entry t log logs s).1 (add_stop_entry t log logs s).2.1
          (add_stop_entry t log logs s).2.2 hrest]
        rw [add_stop_entry_sum t log logs s hs0]
        simp only [legDriveDurations, ratListSum, stopsDurationSum, hdt0]
        ring

/-- C7: day-splitting preserves total time — the sum of entry durations
across all daily logs built for a trip equals the sum of the apportioned
per-leg driving durations plus the sum of all stop durations (exactly, in
rational arithmetic). -/
theorem c7_day_splitting_preserves_time (route : RouteData) (stops fuel_stops : List Stop)
    (start_time : ℚ) (hdur : 0 ≤ route.duration)
    (hstops : ∀ s ∈ stops, 0 ≤ s.duration)
    (hfuel : ∀ s ∈ fuel_stops, 0 ≤ s.duration) :
    logsDurationSum (generate_logs route stops fuel_stops start_time)
      = ratListSum (legDriveDurations route none (merge_and_sort_stops stops fuel_stops))
        + stopsDurationSum (merge_and_sort_stops stops fuel_stops) := by
  have hall : ∀ s ∈ merge_and_sort_stops stops fuel_stops, 0 ≤ s.duration := by
    intro s hs
    unfold merge_and_sort_stops at hs
    simp only [List.mem_append, List.mem_filter] at hs
    rcases hs with ((h | h) | h) | h
    · exact hstops s h.1
    · exact hfuel s h
    · exact hstops s h.1
    · exact hstops s h.1
  have hsum := process_stops_sum route hdur (merge_and_sort_stops stops fuel_stops)
    none start_time ⟨dayIndex start_time, [], 0, 0⟩ [] hall
  simp only [mk_log_entries, entriesDurationSum, logsDurationSum] at hsum
  simp only [generate_logs]
  by_cases hemp : (process_stops route (merge_and_sort_stops stops fuel_stops)
      none start_time ⟨dayIndex start_time, [], 0, 0⟩ []).2.1.entries = []
  · rw [if_pos hemp]
    rw [List.append_nil]
    rw [hemp] at hsum
    simp only [entriesDurationSum] at hsum
    linarith
  · rw [if_neg hemp]
    rw [logsDurationSum_append]
    simp only [logsDurationSum]
    linarith

theorem c7_day_splitting_preserves_time_witness :
    (0:ℚ) ≤ route300.duration ∧
    logsDurationSum (generate_logs route300 []
        [⟨"fuel", ⟨"Fuel Stop", 0, 0⟩, 0, 1/2, ""⟩] 0)
      = ratListSum (legDriveDurations route300 none
          (merge_and_sort_stops [] [⟨"fuel", ⟨"Fuel Stop", 0, 0⟩, 0, 1/2, ""⟩]))
        + stopsDurationSum (merge_and_sort_stops []
            [⟨"fuel", ⟨"Fuel Stop", 0, 0⟩, 0, 1/2, ""⟩]) :=
  ⟨by norm_num [route300],
    c7_day_splitting_preserves_time route300 [] [⟨"fuel", ⟨"Fuel Stop", 0, 0⟩, 0, 1/2, ""⟩] 0
      (by norm_num [route300])
      (by intro s hs; simp at hs)
      (by
        intro s hs
        simp only [List.mem_singleton] at hs
        rw [hs]
        norm_num)⟩
